import Mathlib

/-!
Verification of the pmtiles metadata resolver
(src/pygeoapi/provider/mvt_pmtiles.py, class MVTPmtilesProvider).

Shallow embedding conventions:
* Environment effects are explicit parameters: the result of urlparse and
  is_url, the outcome of the HEAD request issued in the constructor, the
  filesystem existence checks, and the outcome of each descriptor fetch
  (get_metadata_from_URL, the delegated fetch of section 4.2 of the spec).
* The fetched descriptor document is a structure of Option fields: key
  presence in the JSON dict corresponds to isSome.
* Exceptions become Except values; the distinction between the provider
  connection error (caught by the render operations) and a Python KeyError
  (never caught) is kept in the error type.
-/

namespace Pmtiles

/-- A vector layer entry of the descriptor document.  The resolver copies
the vector_layers value opaquely, so only the identifying field is kept. -/
structure VectorLayer where
  id : String
deriving DecidableEq, Repr

/-- The tile set descriptor document as fetched (a loosely typed JSON
dict): every field may be absent, absence of a key is Option.none. -/
structure TileDoc where
  name : Option String := none
  description : Option String := none
  attribution : Option String := none
  bounds : Option (List Int) := none
  center : Option (List Int) := none
  minzoom : Option Int := none
  maxzoom : Option Int := none
  vector_layers : Option (List VectorLayer) := none
deriving DecidableEq, Repr

/-- Modelled from the spec: MVTTilesJson (pygeoapi.models.provider.mvt is
not under src/) is the reshaped-descriptor structure; the spec states that
absent keys leave the corresponding output field at its type default
(optional fields defaulting to absent/null), and that tiles is overwritten
with a one-element list. -/
structure MVTTilesJson where
  name : Option String := none
  description : Option String := none
  attribution : Option String := none
  bounds : Option (List Int) := none
  center : Option (List Int) := none
  minzoom : Option Int := none
  maxzoom : Option Int := none
  tiles : List String := []
  vector_layers : List VectorLayer := []
deriving DecidableEq, Repr

/-- Modelled from the spec: url_join (pygeoapi.util is not under src/)
joins two URL parts into a single-slash-separated URL, as in the spec's
built-URL descriptions such as
base followed by /collections/dataset/tiles/tileset. -/
def url_join (a b : String) : String := a ++ "/" ++ b

/-- Outcome of the HEAD request requests.head(metadata_path) issued
during construction: either a response with a status code, or the HTTP
client raised (host unreachable etc.). -/
inductive HeadOutcome where
  | response (status : Nat)
  | raised (msg : String)
deriving DecidableEq, Repr

/-- Outcome of the delegated descriptor fetch get_metadata_from_URL:
the parsed document, or a ProviderConnectionError (section 4.2 contract). -/
inductive FetchOutcome where
  | ok (doc : TileDoc)
  | connError (msg : String)
deriving DecidableEq, Repr

/-- Errors that can abort construction: ProviderConnectionError (raised
explicitly for a missing local path) or a propagated HTTP-client
exception from the unguarded requests.head call. -/
inductive InitErr where
  | providerConnectionError (msg : String)
  | requestException (msg : String)
deriving DecidableEq, Repr

/-- Errors of the render operations: ProviderConnectionError (the only
class caught by the try/except blocks) or a Python KeyError from a
missing dict key (never caught). -/
inductive RenderErr where
  | connectionError (msg : String)
  | keyError (key : String)
deriving DecidableEq, Repr

/-- The environment observed by the constructor: the is_url
classification of self.data, the scheme and netloc components from
urlparse(self.data), the layer name returned by self.get_layer(), the
HEAD outcome, and the two filesystem existence checks of the local
branch. -/
structure InitEnv where
  is_url : Bool
  scheme : String
  netloc : String
  layer_name : String
  head : HeadOutcome
  data_exists : Bool
  metadata_exists : Bool
deriving DecidableEq, Repr

/-- The resolver state fixed by construction: the configured data string
and the two location fields assigned in MVTPmtilesProvider.__init__. -/
structure MVTPmtilesProvider where
  data : String
  service_url : String
  service_metadata_url : String
deriving DecidableEq, Repr

/-- MVTPmtilesProvider.__init__ (mvt_pmtiles.py lines 59-108), after the
superclass call.  The URL branch builds baseurl from scheme and netloc,
prefixes the layer name with a slash, assigns the templated service URL
and an intermediate service-metadata URL that is immediately overwritten,
issues the HEAD request (a raised client exception propagates and aborts
construction; a non-200 status only logs), and unconditionally stores
the f-string metadata_path.  The local branch aborts with a
ProviderConnectionError when the path does not exist and only logs when
the metadata file inside it does not exist. -/
def init (data : String) (env : InitEnv) : Except InitErr MVTPmtilesProvider :=
  if env.is_url then
    let baseurl := env.scheme ++ "://" ++ env.netloc
    let layer := "/" ++ env.layer_name
    let tilepath := layer ++ "/tiles"
    let servicepath :=
      tilepath ++ "/\x7btileMatrixSetId\x7d/\x7btileMatrix\x7d/\x7btileRow\x7d/\x7btileCol\x7d?f=mvt"
    let service_url := url_join baseurl servicepath
    -- intermediate _service_metadata_url assignment, overwritten below
    let service_metadata_url :=
      url_join
        ((service_url.splitOn "\x7btileMatrix\x7d/\x7btileRow\x7d/\x7btileCol\x7d").headD "")
        "metadata"
    let metadata_path := baseurl ++ "/" ++ layer ++ ".json"
    match env.head with
    | .raised m => .error (.requestException m)
    | .response status =>
        -- if head.status_code != 200: only LOGGER.error / LOGGER.warning
        let _ := status
        let _ := service_metadata_url
        .ok { data := data, service_url := service_url,
              service_metadata_url := metadata_path }
  else
    if !env.data_exists then
      .error (.providerConnectionError ("Service does not exist: " ++ data))
    else
      let service_url := data
      let metadata_path := data ++ "/metadata"
      -- if not metadata_path.exists(): only LOGGER.error / LOGGER.warning
      let _ := env.metadata_exists
      .ok { data := data, service_url := service_url,
            service_metadata_url := metadata_path }

/-- Arguments common to both render operations. -/
structure RenderArgs where
  dataset : String
  server_url : String
  layer : String
  tileset : String
  title : String
  description : String
  keywords : List String
deriving DecidableEq, Repr

/-- The HTML-view rendered metadata dict: five fixed keys, plus the
metadata and tilejson_url keys that are present only when the descriptor
fetch succeeded (Option.none models key absence). -/
structure HtmlMetadata where
  id : String
  title : String
  tileset : String
  collections_path : String
  json_url : String
  metadata : Option MVTTilesJson := none
  tilejson_url : Option String := none
deriving DecidableEq, Repr

/-- The field-by-field conditional copy shared by both render operations
(mvt_pmtiles.py lines 133-147 and 172-186): each optional field is copied
only if its key is present in the fetched document, then tiles is
overwritten and vector_layers looked up unconditionally (a missing
vector_layers key raises KeyError). -/
def reshape (doc : TileDoc) (service_url : String) :
    Except RenderErr MVTTilesJson :=
  let content : MVTTilesJson := {}
  let content := match doc.name with
    | some v => { content with name := some v } | none => content
  let content := match doc.description with
    | some v => { content with description := some v } | none => content
  let content := match doc.attribution with
    | some v => { content with attribution := some v } | none => content
  let content := match doc.bounds with
    | some v => { content with bounds := some v } | none => content
  let content := match doc.center with
    | some v => { content with center := some v } | none => content
  let content := match doc.minzoom with
    | some v => { content with minzoom := some v } | none => content
  let content := match doc.maxzoom with
    | some v => { content with maxzoom := some v } | none => content
  let content := { content with tiles := [service_url] }
  match doc.vector_layers with
  | none => .error (.keyError "vector_layers")
  | some vls => .ok { content with vector_layers := vls }

/-- The service_url local of get_html_metadata (line 115): the
tileMatrix/tileRow/tileCol placeholder convention. -/
def html_service_url (a : RenderArgs) : String :=
  url_join a.server_url
    ("collections/" ++ a.dataset ++ "/tiles/" ++ a.tileset ++
     "/\x7btileMatrix\x7d/\x7btileRow\x7d/\x7btileCol\x7d?f=mvt")

/-- The metadata_url local of get_html_metadata (line 118). -/
def html_metadata_url (a : RenderArgs) : String :=
  url_join a.server_url
    ("collections/" ++ a.dataset ++ "/tiles/" ++ a.tileset ++ "/metadata")

/-- The service_url local of get_vendor_metadata (line 166): the z/x/y
placeholder convention. -/
def vendor_service_url (a : RenderArgs) : String :=
  url_join a.server_url
    ("collections/" ++ a.dataset ++ "/tiles/" ++ a.tileset ++
     "/\x7bz\x7d/\x7bx\x7d/\x7by\x7d?f=mvt")

/-- MVTPmtilesProvider.get_html_metadata (lines 113-158).  Builds the
five fixed keys, then tries the descriptor fetch: on success it attaches
the reshaped descriptor and the tilejson_url key (a KeyError from a
missing vector_layers key propagates); a ProviderConnectionError from
the fetch is swallowed and the five-key dict is returned. -/
def get_html_metadata (p : MVTPmtilesProvider) (a : RenderArgs)
    (fetch : FetchOutcome) : Except RenderErr HtmlMetadata :=
  let service_url := html_service_url a
  let metadata_url := html_metadata_url a
  let base : HtmlMetadata :=
    { id := a.dataset, title := a.title, tileset := a.tileset,
      collections_path := service_url,
      json_url := metadata_url ++ "?f=json" }
  let _ := p.service_metadata_url
  match fetch with
  | .connError _ => .ok base
  | .ok doc =>
      match reshape doc service_url with
      | .error e => .error e
      | .ok content =>
          .ok { base with
                metadata := some content
                tilejson_url := some (metadata_url ++ "?f=tilejson") }

/-- MVTPmtilesProvider.get_vendor_metadata (lines 160-194).  On fetch
success it returns the reshaped descriptor alone, with tiles overwritten
to the z/x/y-templated URL; a ProviderConnectionError from the fetch is
re-raised with a message naming the service metadata location; a
KeyError propagates. -/
def get_vendor_metadata (p : MVTPmtilesProvider) (a : RenderArgs)
    (fetch : FetchOutcome) : Except RenderErr MVTTilesJson :=
  match fetch with
  | .connError _ =>
      .error (.connectionError
        ("No tiles metadata json available: " ++ p.service_metadata_url))
  | .ok doc =>
      let service_url := vendor_service_url a
      reshape doc service_url

/-- One call against the resolver: either render operation, with that
call's own fetch outcome. -/
inductive Call where
  | html (a : RenderArgs) (f : FetchOutcome)
  | vendor (a : RenderArgs) (f : FetchOutcome)
deriving DecidableEq, Repr

/-- The result of one call. -/
inductive CallResult where
  | html (r : Except RenderErr HtmlMetadata)
  | vendor (r : Except RenderErr MVTTilesJson)
deriving Repr

/-- One call as a state transformer on the resolver: the method bodies
contain no assignment to self, so the state returned is the state passed
in; this is the translation of the Python methods, made explicit so that
immutability is a statement about the code rather than a convention. -/
def step (p : MVTPmtilesProvider) : Call → CallResult × MVTPmtilesProvider
  | .html a f => (.html (get_html_metadata p a f), p)
  | .vendor a f => (.vendor (get_vendor_metadata p a f), p)

/-- A sequence of calls threading the resolver state through each call
and collecting the per-call results. -/
def runCalls (p : MVTPmtilesProvider) :
    List Call → List CallResult × MVTPmtilesProvider
  | [] => ([], p)
  | c :: cs =>
      let rp := step p c
      let rest := runCalls rp.2 cs
      (rp.1 :: rest.1, rest.2)

/-- True exactly when an Except value is a raised
ProviderConnectionError. -/
def isConnectionError {α : Type} : Except RenderErr α → Bool
  | .error (.connectionError _) => true
  | _ => false

/-- Characterization of the HTML render on a successful fetch: the
conditional field-by-field copy equals copying each Option directly,
because the output fields default to absent. -/
theorem get_html_metadata_ok (p : MVTPmtilesProvider) (a : RenderArgs)
    (doc : TileDoc) :
    get_html_metadata p a (.ok doc) =
      match doc.vector_layers with
      | none => .error (.keyError "vector_layers")
      | some vls =>
          .ok { id := a.dataset, title := a.title, tileset := a.tileset,
                collections_path := html_service_url a,
                json_url := html_metadata_url a ++ "?f=json",
                metadata := some
                  { name := doc.name, description := doc.description,
                    attribution := doc.attribution, bounds := doc.bounds,
                    center := doc.center, minzoom := doc.minzoom,
                    maxzoom := doc.maxzoom,
                    tiles := [html_service_url a], vector_layers := vls },
                tilejson_url := some (html_metadata_url a ++ "?f=tilejson") } := by
  rcases doc with ⟨n, d, g, b, c, mn, mx, vl⟩
  cases n <;> cases d <;> cases g <;> cases b <;> cases c <;> cases mn <;>
    cases mx <;> cases vl <;> rfl

/-- Characterization of the vendor render on a successful fetch. -/
theorem get_vendor_metadata_ok (p : MVTPmtilesProvider) (a : RenderArgs)
    (doc : TileDoc) :
    get_vendor_metadata p a (.ok doc) =
      match doc.vector_layers with
      | none => .error (.keyError "vector_layers")
      | some vls =>
          .ok { name := doc.name, description := doc.description,
                attribution := doc.attribution, bounds := doc.bounds,
                center := doc.center, minzoom := doc.minzoom,
                maxzoom := doc.maxzoom,
                tiles := [vendor_service_url a], vector_layers := vls } := by
  rcases doc with ⟨n, d, g, b, c, mn, mx, vl⟩
  cases n <;> cases d <;> cases g <;> cases b <;> cases c <;> cases mn <;>
    cases mx <;> cases vl <;> rfl

/-- runCalls never changes the resolver state and each call's result is
the result of that call against the initial state. -/
theorem runCalls_eq (p : MVTPmtilesProvider) (cs : List Call) :
    runCalls p cs = (cs.map (fun c => (step p c).1), p) := by
  induction cs with
  | nil => rfl
  | cons c cs ih => cases c <;> simp [runCalls, step, ih]

/-- C1 counterexample: at the concrete URL-backed configuration with
scheme https, host tiles.example.com, layer roads and a 404 HEAD
response, construction succeeds but service_metadata_url is
https://tiles.example.com//roads.json — a double slash, because the
layer variable is built with a leading slash and the format string
inserts another — not the single-slash value the claim states. -/
theorem c1_counterexample :
    (init "https://tiles.example.com/data"
        { is_url := true, scheme := "https", netloc := "tiles.example.com",
          layer_name := "roads", head := .response 404,
          data_exists := true, metadata_exists := true }).map
      (fun p => p.service_metadata_url) =
      Except.ok "https://tiles.example.com//roads.json" ∧
    ("https://tiles.example.com//roads.json" ==
      "https://tiles.example.com/roads.json") = false := by
  exact ⟨rfl, by decide⟩

/-- C1 (amended): for every URL-backed configuration, construction
succeeds whenever the HEAD request returns a response, whatever its
status, and service_metadata_url is set to
scheme://host//layer.json — scheme+host, TWO slashes (one from the
format string and one prefixed to the layer name), the layer name,
.json — regardless of the returned status. -/
theorem c1_amended_service_metadata_url (data : String) (env : InitEnv)
    (s : Nat) (hu : env.is_url = true) (hh : env.head = .response s) :
    ∃ p, init data env = .ok p ∧
      p.service_metadata_url =
        env.scheme ++ "://" ++ env.netloc ++ "/" ++
          ("/" ++ env.layer_name) ++ ".json" := by
  rcases env with ⟨iu, sch, nl, ln, hd, de, me⟩
  subst hu
  subst hh
  exact ⟨_, rfl, rfl⟩

/-- Witness for the amended C1 at a concrete configuration. -/
theorem c1_amended_witness :
    ({ is_url := true, scheme := "https", netloc := "tiles.example.com",
       layer_name := "roads", head := .response 404,
       data_exists := true, metadata_exists := true } : InitEnv).is_url
        = true ∧
    ({ is_url := true, scheme := "https", netloc := "tiles.example.com",
       layer_name := "roads", head := .response 404,
       data_exists := true, metadata_exists := true } : InitEnv).head
        = .response 404 ∧
    ∃ p, init "https://tiles.example.com/data"
        { is_url := true, scheme := "https", netloc := "tiles.example.com",
          layer_name := "roads", head := .response 404,
          data_exists := true, metadata_exists := true } = .ok p ∧
      p.service_metadata_url =
        "https" ++ "://" ++ "tiles.example.com" ++ "/" ++
          ("/" ++ "roads") ++ ".json" :=
  ⟨rfl, rfl, c1_amended_service_metadata_url _ _ 404 rfl rfl⟩

/-- C2: the HTML-view render never raises a connection error; on a
fetch connection error it returns the dictionary with exactly the five
fixed keys and neither a metadata nor a tilejson_url key. -/
theorem c2_html_degrades_gracefully (p : MVTPmtilesProvider)
    (a : RenderArgs) :
    (∀ m, get_html_metadata p a (.connError m) =
      .ok { id := a.dataset, title := a.title, tileset := a.tileset,
            collections_path := html_service_url a,
            json_url := html_metadata_url a ++ "?f=json",
            metadata := none, tilejson_url := none }) ∧
    ∀ f, isConnectionError (get_html_metadata p a f) = false := by
  refine ⟨fun m => rfl, fun f => ?_⟩
  cases f with
  | connError m => rfl
  | ok doc =>
      rw [get_html_metadata_ok]
      cases doc.vector_layers <;> rfl

/-- C3: a successfully fetched descriptor lacking the vector_layers key
makes both render operations fail with the uncaught KeyError, not a
connection error, in the HTML view not swallowed. -/
theorem c3_missing_vector_layers (p : MVTPmtilesProvider)
    (a : RenderArgs) (doc : TileDoc) (h : doc.vector_layers = none) :
    get_html_metadata p a (.ok doc) = .error (.keyError "vector_layers") ∧
    get_vendor_metadata p a (.ok doc)
      = .error (.keyError "vector_layers") := by
  rw [get_html_metadata_ok, get_vendor_metadata_ok, h]
  exact ⟨rfl, rfl⟩

/-- Witness for C3 at the empty descriptor document. -/
theorem c3_missing_vector_layers_witness :
    ({} : TileDoc).vector_layers = none ∧
    (get_html_metadata ⟨"/d", "/d", "/d/metadata"⟩
        ⟨"ds", "http://srv", "lyr", "ts", "t", "dsc", []⟩ (.ok {}) =
      .error (.keyError "vector_layers") ∧
    get_vendor_metadata ⟨"/d", "/d", "/d/metadata"⟩
        ⟨"ds", "http://srv", "lyr", "ts", "t", "dsc", []⟩ (.ok {}) =
      .error (.keyError "vector_layers")) :=
  ⟨rfl, c3_missing_vector_layers _ _ {} rfl⟩

/-- C4: a local-path configuration whose path does not exist makes
construction fail with a ProviderConnectionError naming the missing
path; no resolver instance is produced. -/
theorem c4_local_nonexistent_path (data : String) (env : InitEnv)
    (hu : env.is_url = false) (he : env.data_exists = false) :
    init data env =
      .error (.providerConnectionError
        ("Service does not exist: " ++ data)) := by
  rcases env with ⟨iu, sch, nl, ln, hd, de, me⟩
  subst hu
  subst he
  rfl

/-- Witness for C4 at a concrete missing directory. -/
theorem c4_local_nonexistent_path_witness :
    ({ is_url := false, scheme := "", netloc := "", layer_name := "lyr",
       head := .response 200, data_exists := false,
       metadata_exists := false } : InitEnv).is_url = false ∧
    ({ is_url := false, scheme := "", netloc := "", layer_name := "lyr",
       head := .response 200, data_exists := false,
       metadata_exists := false } : InitEnv).data_exists = false ∧
    init "/no/such/dir"
      { is_url := false, scheme := "", netloc := "", layer_name := "lyr",
        head := .response 200, data_exists := false,
        metadata_exists := false } =
      .error (.providerConnectionError
        ("Service does not exist: " ++ "/no/such/dir")) :=
  ⟨rfl, rfl, c4_local_nonexistent_path "/no/such/dir" _ rfl rfl⟩

/-- C5: a local-path configuration whose directory exists but lacks the
metadata file still constructs successfully, with service_metadata_url
set to path/metadata, and every vendor-view render whose fetch fails
raises a ProviderConnectionError naming that metadata location. -/
theorem c5_local_missing_metadata_file (data : String) (env : InitEnv)
    (a : RenderArgs) (hu : env.is_url = false)
    (he : env.data_exists = true) (hm : env.metadata_exists = false) :
    ∃ p, init data env = .ok p ∧
      p.service_metadata_url = data ++ "/metadata" ∧
      ∀ m, get_vendor_metadata p a (.connError m) =
        .error (.connectionError
          ("No tiles metadata json available: "
            ++ (data ++ "/metadata"))) := by
  rcases env with ⟨iu, sch, nl, ln, hd, de, me⟩
  subst hu
  subst he
  subst hm
  exact ⟨_, rfl, rfl, fun m => rfl⟩

/-- Witness for C5 at a concrete directory without a metadata file. -/
theorem c5_local_missing_metadata_file_witness :
    ({ is_url := false, scheme := "", netloc := "", layer_name := "lyr",
       head := .response 200, data_exists := true,
       metadata_exists := false } : InitEnv).is_url = false ∧
    ({ is_url := false, scheme := "", netloc := "", layer_name := "lyr",
       head := .response 200, data_exists := true,
       metadata_exists := false } : InitEnv).data_exists = true ∧
    ({ is_url := false, scheme := "", netloc := "", layer_name := "lyr",
       head := .response 200, data_exists := true,
       metadata_exists := false } : InitEnv).metadata_exists = false ∧
    ∃ p, init "/tiles/dir"
        { is_url := false, scheme := "", netloc := "", layer_name := "lyr",
          head := .response 200, data_exists := true,
          metadata_exists := false } = .ok p ∧
      p.service_metadata_url = "/tiles/dir" ++ "/metadata" ∧
      ∀ m, get_vendor_metadata p
          ⟨"ds", "http://srv", "lyr", "ts", "t", "dsc", []⟩
          (.connError m) =
        .error (.connectionError
          ("No tiles metadata json available: "
            ++ ("/tiles/dir" ++ "/metadata"))) :=
  ⟨rfl, rfl, rfl,
    c5_local_missing_metadata_file "/tiles/dir" _
      ⟨"ds", "http://srv", "lyr", "ts", "t", "dsc", []⟩ rfl rfl rfl⟩

/-- C6: for the descriptor with only minzoom 0, maxzoom 14 and one
vector layer roads, the HTML render succeeds with those values in the
nested metadata and all absent optional fields at their type default;
in general present optional fields are copied and absent ones stay at
the default without causing failure. -/
theorem c6_optional_fields (p : MVTPmtilesProvider) (a : RenderArgs) :
    get_html_metadata p a
      (.ok { minzoom := some 0, maxzoom := some 14,
             vector_layers := some [⟨"roads"⟩] }) =
      .ok { id := a.dataset, title := a.title, tileset := a.tileset,
            collections_path := html_service_url a,
            json_url := html_metadata_url a ++ "?f=json",
            metadata := some
              { name := none, description := none, attribution := none,
                bounds := none, center := none,
                minzoom := some 0, maxzoom := some 14,
                tiles := [html_service_url a],
                vector_layers := [⟨"roads"⟩] },
            tilejson_url := some (html_metadata_url a ++ "?f=tilejson") } ∧
    ∀ (d : TileDoc) (vls : List VectorLayer),
      get_html_metadata p a (.ok { d with vector_layers := some vls }) =
        .ok { id := a.dataset, title := a.title, tileset := a.tileset,
              collections_path := html_service_url a,
              json_url := html_metadata_url a ++ "?f=json",
              metadata := some
                { name := d.name, description := d.description,
                  attribution := d.attribution, bounds := d.bounds,
                  center := d.center, minzoom := d.minzoom,
                  maxzoom := d.maxzoom,
                  tiles := [html_service_url a], vector_layers := vls },
              tilejson_url := some (html_metadata_url a ++ "?f=tilejson") }
    := by
  refine ⟨rfl, fun d vls => ?_⟩
  rw [get_html_metadata_ok]

/-- C7: when the fetch succeeds (and the descriptor carries its
vector_layers), the vendor render returns the reshaped descriptor alone
(its type has no envelope fields id/title/tileset/collections_path/
json_url) and tiles is exactly the one-element list with the
server_url/collections/dataset/tiles/tileset/z/x/y?f=mvt template. -/
theorem c7_vendor_descriptor_alone (p : MVTPmtilesProvider)
    (a : RenderArgs) (d : TileDoc) (vls : List VectorLayer) :
    get_vendor_metadata p a (.ok { d with vector_layers := some vls }) =
      .ok { name := d.name, description := d.description,
            attribution := d.attribution, bounds := d.bounds,
            center := d.center, minzoom := d.minzoom,
            maxzoom := d.maxzoom,
            tiles := [a.server_url ++ "/" ++
              ("collections/" ++ a.dataset ++ "/tiles/" ++ a.tileset ++
               "/\x7bz\x7d/\x7bx\x7d/\x7by\x7d?f=mvt")],
            vector_layers := vls } := by
  rw [get_vendor_metadata_ok]
  rfl

/-- C8: every sequence of render calls leaves service_url and
service_metadata_url unchanged, each call's result is the independent
result of that call against the constructed state (no caching), and n
repeated vendor renders against an unreachable descriptor location
raise the connection error on every one of the n calls. -/
theorem c8_immutable_and_uncached (p : MVTPmtilesProvider)
    (cs : List Call) :
    (runCalls p cs).2.service_url = p.service_url ∧
    (runCalls p cs).2.service_metadata_url = p.service_metadata_url ∧
    (runCalls p cs).1 = cs.map (fun c => (step p c).1) ∧
    ∀ (n : Nat) (a : RenderArgs) (m : String),
      (runCalls p (List.replicate n (.vendor a (.connError m)))).1 =
        List.replicate n (.vendor (.error (.connectionError
          ("No tiles metadata json available: "
            ++ p.service_metadata_url)))) := by
  refine ⟨by rw [runCalls_eq], by rw [runCalls_eq], by rw [runCalls_eq],
    fun n a m => ?_⟩
  rw [runCalls_eq]
  simp only [List.map_replicate]
  rfl

/-- C9: when the HEAD request itself raises, the exception propagates
and construction aborts; when a response is received, whatever its
status, construction succeeds. -/
theorem c9_head_exception_propagates (data : String) (env : InitEnv)
    (m : String) (hu : env.is_url = true)
    (hh : env.head = .raised m) :
    init data env = .error (.requestException m) ∧
    ∀ (s : Nat), ∃ p,
      init data { env with head := .response s } = .ok p := by
  rcases env with ⟨iu, sch, nl, ln, hd, de, me⟩
  subst hu
  subst hh
  exact ⟨rfl, fun s => ⟨_, rfl⟩⟩

/-- Witness for C9 at a concrete unreachable host. -/
theorem c9_head_exception_propagates_witness :
    ({ is_url := true, scheme := "https", netloc := "down.example.com",
       layer_name := "roads", head := .raised "connection refused",
       data_exists := true, metadata_exists := true } : InitEnv).is_url
        = true ∧
    ({ is_url := true, scheme := "https", netloc := "down.example.com",
       layer_name := "roads", head := .raised "connection refused",
       data_exists := true, metadata_exists := true } : InitEnv).head
        = .raised "connection refused" ∧
    (init "https://down.example.com/data"
        { is_url := true, scheme := "https", netloc := "down.example.com",
          layer_name := "roads", head := .raised "connection refused",
          data_exists := true, metadata_exists := true } =
      .error (.requestException "connection refused") ∧
    ∀ (s : Nat), ∃ p,
      init "https://down.example.com/data"
        { is_url := true, scheme := "https",
          netloc := "down.example.com", layer_name := "roads",
          head := .response s,
          data_exists := true, metadata_exists := true } = .ok p) :=
  ⟨rfl, rfl,
    c9_head_exception_propagates "https://down.example.com/data" _
      "connection refused" rfl rfl⟩

/-- C10: the vendor render's result does not depend on the layer,
title, description or keywords arguments, and the HTML render's result
does not depend on the layer, description or keywords arguments. -/
theorem c10_render_ignores_unused_args (p : MVTPmtilesProvider)
    (f : FetchOutcome)
    (dataset server_url tileset title l1 l2 t1 t2 d1 d2 : String)
    (k1 k2 : List String) :
    get_vendor_metadata p ⟨dataset, server_url, l1, tileset, t1, d1, k1⟩ f =
      get_vendor_metadata p ⟨dataset, server_url, l2, tileset, t2, d2, k2⟩ f ∧
    get_html_metadata p ⟨dataset, server_url, l1, tileset, title, d1, k1⟩ f =
      get_html_metadata p ⟨dataset, server_url, l2, tileset, title, d2, k2⟩ f
    := by
  cases f <;> exact ⟨rfl, rfl⟩

end Pmtiles
